import Mathlib

/-!
Shallow embedding of the core state and algorithms of the
`vulkan-tutorial-rs` renderer, together with proofs of the specified
properties.  Machine integers (`u32`, `u64`, `vk::DeviceSize`) are
modelled as `Nat`; bit masks use `Nat` bitwise operations.  Fallible or
panicking code is modelled with `Option` (`none` = panic).  Vulkan
handles are opaque driver values and are modelled as `Nat` tags.
-/

/-- `vk::MemoryRequirements`: size, alignment and the memory-type
bitmask reported by the driver for a resource. -/
structure MemoryRequirements where
  size : Nat
  alignment : Nat
  memoryTypeBits : Nat
deriving DecidableEq, Repr

/-- `vk::PhysicalDeviceMemoryProperties`: the number of valid memory
types and the property flags of each type.  In Vulkan `memory_types` is
a fixed 32-entry array indexed by `i < memory_type_count`; it is
modelled as a total map from index to property-flag mask. -/
structure PhysicalDeviceMemoryProperties where
  memoryTypeCount : Nat
  memoryTypes : Nat → Nat

/-- The per-index test of `find_memory_type` (context.rs:227-230):
`requirements.memory_type_bits & (1 << i) != 0` and
`memory_types[i].property_flags.contains(required_properties)`, where
`contains` for Vulkan flags is `(flags & required) == required`. -/
def suitableMemoryType (requirements : MemoryRequirements)
    (memProperties : PhysicalDeviceMemoryProperties)
    (requiredProperties : Nat) (i : Nat) : Bool :=
  (requirements.memoryTypeBits &&& (1 <<< i) != 0)
    && (memProperties.memoryTypes i &&& requiredProperties == requiredProperties)

/-- The `for i in 0..count` search loop: starting at index `i` with
`fuel` iterations remaining, return the first index satisfying `p`. -/
def findFrom (p : Nat → Bool) (i : Nat) : Nat → Option Nat
  | 0 => none
  | fuel + 1 => if p i then some i else findFrom p (i + 1) fuel

/-- `find_memory_type` (context.rs:221-236).  The Rust function panics
when no type matches; the panic is modelled as `none`. -/
def find_memory_type (requirements : MemoryRequirements)
    (memProperties : PhysicalDeviceMemoryProperties)
    (requiredProperties : Nat) : Option Nat :=
  findFrom (suitableMemoryType requirements memProperties requiredProperties)
    0 memProperties.memoryTypeCount

/-- `SyncObjects` (main.rs): the per-frame synchronization handle
triple.  Handles are opaque `Nat` tags. -/
structure SyncObjects where
  imageAvailableSemaphore : Nat
  renderFinishedSemaphore : Nat
  fence : Nat
deriving DecidableEq, Repr

/-- `InFlightFrames` (main.rs): the ring of sync-object slots plus the
monotonically advancing index. -/
structure InFlightFrames where
  syncObjects : List SyncObjects
  currentFrame : Nat
deriving DecidableEq, Repr

/-- `InFlightFrames::new` (main.rs): starts at `current_frame = 0`. -/
def InFlightFrames.new (syncObjects : List SyncObjects) : InFlightFrames :=
  ⟨syncObjects, 0⟩

/-- `Iterator::next` for `InFlightFrames` (main.rs:1607-1617): reads
`sync_objects[current_frame]`, then advances the index by 1 mod the ring
length, and returns `Some(next)`.  The Rust indexing (and `% 0`) panics
on an empty ring; the panic is modelled as `none`. -/
def InFlightFrames.next (s : InFlightFrames) :
    Option (SyncObjects × InFlightFrames) :=
  match s.syncObjects.get? s.currentFrame with
  | none => none
  | some o =>
    some (o, ⟨s.syncObjects, (s.currentFrame + 1) % s.syncObjects.length⟩)

/-- The state after `n` consecutive `next()` calls (`none` if any call
panicked). -/
def InFlightFrames.stepN : InFlightFrames → Nat → Option InFlightFrames
  | s, 0 => some s
  | s, n + 1 =>
    match s.next with
    | none => none
    | some (_, s') => s'.stepN n

/-- The value returned by the `i`-th `next()` call (`i ≥ 1`): advance
`i - 1` times, then call once more and keep the returned slot. -/
def InFlightFrames.callNext (s : InFlightFrames) (i : Nat) : Option SyncObjects :=
  match s.stepN (i - 1) with
  | none => none
  | some s' => s'.next.map Prod.fst

/-- Result of `Swapchain::acquire_next_image` as matched in
`draw_frame` (main.rs:1333-1343): success with an image index,
`ERROR_OUT_OF_DATE_KHR`, or any other error. -/
inductive AcquireResult
  | ok (imageIndex : Nat)
  | outOfDate
  | otherError
deriving DecidableEq, Repr

/-- Result of `Swapchain::present` as matched in `draw_frame`
(main.rs:1385-1395): success carrying the suboptimal flag,
`ERROR_OUT_OF_DATE_KHR`, or any other error. -/
inductive PresentResult
  | ok (suboptimal : Bool)
  | outOfDate
  | otherError
deriving DecidableEq, Repr

/-- Observable actions of one `draw_frame` iteration (main.rs:1318-1401),
in program order. `fatal` models a `panic!`, which aborts the iteration. -/
inductive FrameAction
  | nextSyncObjects
  | waitFences
  | acquireImage
  | resetFences
  | updateUniforms (imageIndex : Nat)
  | submitCommandBuffer (imageIndex : Nat)
  | presentImage (imageIndex : Nat)
  | recreateSwapchain
  | fatal
deriving DecidableEq, Repr

/-- `VulkanApp::draw_frame` (main.rs:1318-1401) as a trace of actions,
parameterized by the outcome of the acquire call, the outcome of the
present call, and whether a resize notification is pending.
On acquire `ERROR_OUT_OF_DATE_KHR` the code recreates the swapchain and
returns at once; on any other acquire error it panics.  Otherwise it
resets the fence, updates uniforms, submits, presents, and then matches
the present result: suboptimal or `ERROR_OUT_OF_DATE_KHR` recreate the
swapchain, any other error panics (so the trailing resize check is not
reached), and finally a pending resize triggers one more recreation. -/
def drawFrame (acq : AcquireResult) (pres : PresentResult)
    (resizePending : Bool) : List FrameAction :=
  [FrameAction.nextSyncObjects, FrameAction.waitFences, FrameAction.acquireImage] ++
    match acq with
    | .outOfDate => [FrameAction.recreateSwapchain]
    | .otherError => [FrameAction.fatal]
    | .ok imageIndex =>
      [FrameAction.resetFences, FrameAction.updateUniforms imageIndex,
        FrameAction.submitCommandBuffer imageIndex, FrameAction.presentImage imageIndex] ++
        (match pres with
         | .ok true => [FrameAction.recreateSwapchain]
         | .ok false => []
         | .outOfDate => [FrameAction.recreateSwapchain]
         | .otherError => [FrameAction.fatal]) ++
        (match pres with
         | .otherError => []
         | _ => if resizePending then [FrameAction.recreateSwapchain] else [])

/-- Commands recorded into a command buffer by the one-shot executor's
body.  `cmdCopyBuffer` mirrors `cmd_copy_buffer(cb, src, dst, regions)`
with a single `vk::BufferCopy { src_offset, dst_offset, size }` region. -/
inductive RecordedCmd
  | cmdCopyBuffer (src dst srcOffset dstOffset size : Nat)
deriving DecidableEq, Repr

/-- Device-level operations performed by
`VkContext::execute_one_time_commands` (context.rs:146-195), in
program order. -/
inductive DeviceOp
  | allocateCommandBuffer
  | beginCommandBuffer
  | recorded (c : RecordedCmd)
  | endCommandBuffer
  | queueSubmit
  | queueWaitIdle
  | freeCommandBuffer
deriving DecidableEq, Repr

/-- `VkContext::execute_one_time_commands` (context.rs:146-195):
allocate one primary command buffer from the transient pool, begin with
the one-time-submit hint, run the executor body, end, submit to the
graphics queue, wait for the queue to idle, then free the buffer. -/
def execute_one_time_commands (body : List RecordedCmd) : List DeviceOp :=
  [DeviceOp.allocateCommandBuffer, DeviceOp.beginCommandBuffer]
    ++ body.map DeviceOp.recorded
    ++ [DeviceOp.endCommandBuffer, DeviceOp.queueSubmit,
        DeviceOp.queueWaitIdle, DeviceOp.freeCommandBuffer]

/-- `Buffer` (buffer.rs): buffer handle, memory handle, stored size. -/
structure Buffer where
  buffer : Nat
  memory : Nat
  size : Nat
deriving DecidableEq, Repr

/-- `Buffer::copy` (buffer.rs:76-91): inside
`execute_one_time_commands`, records one `cmd_copy_buffer` whose source
is `src.buffer` (the argument) and whose destination is `self.buffer`,
with both offsets 0 and the given size. -/
def Buffer.copy (self src : Buffer) (size : Nat) : List DeviceOp :=
  execute_one_time_commands
    [RecordedCmd.cmdCopyBuffer src.buffer self.buffer 0 0 size]

/-- Device calls made by `Buffer::create` (buffer.rs:33-67), with the
arguments relevant to sizing and binding. -/
inductive CreateEvent
  | createBuffer (size usage : Nat)
  | allocateMemory (allocationSize memoryTypeIndex : Nat)
  | bindBufferMemory (offset : Nat)
deriving DecidableEq, Repr

/-- `Buffer::create` (buffer.rs:33-67).  The driver-reported
`vk::MemoryRequirements` for the created buffer (`reported`) and the
physical-device memory table are oracle inputs; the buffer and memory
handles returned by the driver are opaque (`bufferHandle`,
`memoryHandle`).  The code creates the buffer with the *requested*
`size`, allocates memory of the *reported* `reported.size` using the
type found by `find_memory_type` (whose panic is modelled as `none`),
binds at offset 0, and stores `reported.size` in the returned
`Buffer`. -/
def Buffer.create (bufferHandle memoryHandle : Nat)
    (reported : MemoryRequirements)
    (memProperties : PhysicalDeviceMemoryProperties)
    (size usage memPropertyFlags : Nat) :
    Option (Buffer × List CreateEvent) :=
  match find_memory_type reported memProperties memPropertyFlags with
  | none => none
  | some memType =>
    some (⟨bufferHandle, memoryHandle, reported.size⟩,
      [CreateEvent.createBuffer size usage,
        CreateEvent.allocateMemory reported.size memType,
        CreateEvent.bindBufferMemory 0])

/-- `MAX_FRAMES_IN_FLIGHT` (main.rs:30). -/
def MAX_FRAMES_IN_FLIGHT : Nat := 2

/-- `vk::FenceCreateFlags` as used by `create_sync_objects`: either the
default (empty) flags or `SIGNALED`. -/
inductive FenceCreateFlags
  | empty
  | signaled
deriving DecidableEq, Repr

/-- The creation parameters of one sync-object slot built by
`create_sync_objects` (main.rs:1217-1246): the two semaphores are
created with default create-info (no parameters of interest); the fence
create-info carries its flags. -/
structure SyncObjectsCreation where
  fenceFlags : FenceCreateFlags
deriving DecidableEq, Repr

/-- `VulkanApp::create_sync_objects` (main.rs:1217-1246): one slot per
iteration of `0..MAX_FRAMES_IN_FLIGHT`, each fence created with
`vk::FenceCreateFlags::SIGNALED`. -/
def create_sync_objects : List SyncObjectsCreation :=
  (List.range MAX_FRAMES_IN_FLIGHT).map fun _ =>
    ⟨FenceCreateFlags.signaled⟩

/-- The two command pools owned by `VkContext`. -/
inductive PoolKind
  | transient
  | general
deriving DecidableEq, Repr

/-- Destruction calls made by `impl Drop for VkContext`
(context.rs:198-213). -/
inductive DestroyEvent
  | destroyCommandPool (kind : PoolKind)
  | destroyDevice
  | destroySurface
  | destroyDebugReportCallback
  | destroyInstance
deriving DecidableEq, Repr

/-- `impl Drop for VkContext` (context.rs:198-213) as the ordered list
of destruction calls: transient pool, general pool, device, surface,
then the debug-report callback when present, then the instance. -/
def vkContextDrop (hasDebugCallback : Bool) : List DestroyEvent :=
  [DestroyEvent.destroyCommandPool PoolKind.transient,
    DestroyEvent.destroyCommandPool PoolKind.general,
    DestroyEvent.destroyDevice,
    DestroyEvent.destroySurface]
  ++ (if hasDebugCallback then [DestroyEvent.destroyDebugReportCallback] else [])
  ++ [DestroyEvent.destroyInstance]

/-- `cgmath::Matrix4<f32>`, entries modelled as exact rationals. -/
def Mat4 := Fin 4 → Fin 4 → ℚ

/-- `Object` (object.rs): a shared mesh (opaque handle), the per-image
uniform buffers and descriptor sets, and a fixed model transform. -/
structure Object where
  mesh : Nat
  uniforms : List Buffer
  descriptorSets : List Nat
  transform : Mat4

/-- `Object::new` (object.rs:14-27). -/
def Object.new (mesh : Nat) (uniforms : List Buffer)
    (descriptorSets : List Nat) (transform : Mat4) : Object :=
  ⟨mesh, uniforms, descriptorSets, transform⟩

/-- `Object::uniforms(index)` (object.rs:34-36): `&self.uniforms[index]`,
which panics when `index` is out of bounds; the panic is `none`. -/
def Object.uniformsAt (o : Object) (index : Nat) : Option Buffer :=
  o.uniforms.get? index

/-- `Object::descriptor_sets(index)` (object.rs:38-40):
`self.descriptor_sets[index]`, which panics when `index` is out of
bounds; the panic is `none`. -/
def Object.descriptorSetsAt (o : Object) (index : Nat) : Option Nat :=
  o.descriptorSets.get? index

/-- Modelled from the spec: the `math::clamp` helper used by
`Camera::rotate`; the `math` module file is absent from the sources.
Standard clamping of `value` into `[min, max]`. -/
def clamp (value min max : ℚ) : ℚ :=
  if value < min then min else if value > max then max else value

/-- Rational approximation of π used for `f32::to_radians`.  π is
irrational, so the angle constants are approximate; the radius claims
below do not depend on the angle fields. -/
def piApprox : ℚ := 3.14159265358979

/-- `f32::to_radians`: multiply by π/180. -/
def toRadians (degrees : ℚ) : ℚ :=
  degrees * piApprox / 180

/-- `Camera` (camera.rs): orbit angles and radius, `f32` fields modelled
as exact rationals.  The radius-invariant argument is independent of
rounding because the guard in `forward` tests exactly the value that is
stored. -/
structure Camera where
  theta : ℚ
  phi : ℚ
  r : ℚ
deriving DecidableEq, Repr

/-- `Camera::rotate` (camera.rs:22-26): add to theta, add to phi and
clamp it into `[10°, 170°]` in radians; the radius is untouched. -/
def Camera.rotate (c : Camera) (theta phi : ℚ) : Camera :=
  { c with
    theta := c.theta + theta
    phi := clamp (c.phi + phi) (toRadians 10) (toRadians 170) }

/-- `Camera::forward` (camera.rs:28-32): if `(self.r - r).abs() > 1.0`
then `self.r -= r`, otherwise leave the radius unchanged. -/
def Camera.forward (c : Camera) (r : ℚ) : Camera :=
  if |c.r - r| > 1 then { c with r := c.r - r } else c

/-- `impl Default for Camera` (camera.rs:35-43): theta 0°, phi 45°
(in radians), radius 3.0. -/
def cameraDefault : Camera :=
  ⟨toRadians 0, toRadians 45, 3⟩

/-- A call to one of the camera's mutating operations. -/
inductive CameraOp
  | rotate (theta phi : ℚ)
  | forward (r : ℚ)

/-- Apply one camera operation. -/
def Camera.applyOp (c : Camera) : CameraOp → Camera
  | .rotate theta phi => c.rotate theta phi
  | .forward r => c.forward r

/-- Apply a sequence of camera operations in order. -/
def Camera.applyOps (c : Camera) (ops : List CameraOp) : Camera :=
  ops.foldl Camera.applyOp c

theorem findFrom_eq_some (p : Nat → Bool) :
    ∀ fuel i k, findFrom p i fuel = some k ↔
      (i ≤ k ∧ k < i + fuel ∧ p k = true ∧ ∀ j, i ≤ j → j < k → p j = false) := by
  intro fuel
  induction fuel with
  | zero =>
    intro i k
    simp [findFrom]
    omega
  | succ fuel ih =>
    intro i k
    simp only [findFrom]
    by_cases hpi : p i = true
    · simp [hpi]
      constructor
      · rintro rfl
        refine ⟨le_refl _, by omega, hpi, ?_⟩
        intro j hj1 hj2
        omega
      · rintro ⟨h1, _, _, h4⟩
        rcases Nat.eq_or_lt_of_le h1 with h | h
        · exact h
        · exact absurd hpi (by simpa using h4 i (le_refl _) h)
    · simp only [if_neg hpi, ih (i + 1) k]
      constructor
      · rintro ⟨h1, h2, h3, h4⟩
        refine ⟨by omega, by omega, h3, ?_⟩
        intro j hj1 hj2
        rcases Nat.eq_or_lt_of_le hj1 with h | h
        · subst h
          exact Bool.eq_false_iff.mpr hpi
        · exact h4 j h hj2
      · rintro ⟨h1, h2, h3, h4⟩
        have hik : i ≠ k := by
          rintro rfl
          exact hpi h3
        refine ⟨by omega, by omega, h3, ?_⟩
        intro j hj1 hj2
        exact h4 j (by omega) hj2

theorem findFrom_eq_none (p : Nat → Bool) :
    ∀ fuel i, findFrom p i fuel = none ↔
      ∀ j, i ≤ j → j < i + fuel → p j = false := by
  intro fuel
  induction fuel with
  | zero =>
    intro i
    simp [findFrom]
    omega
  | succ fuel ih =>
    intro i
    simp only [findFrom]
    by_cases hpi : p i = true
    · rw [if_pos hpi]
      constructor
      · intro h
        exact absurd h (Option.some_ne_none _)
      · intro h
        exact absurd hpi (by simpa using h i (le_refl _) (by omega))
    · simp only [if_neg hpi, ih (i + 1)]
      constructor
      · intro h j hj1 hj2
        rcases Nat.eq_or_lt_of_le hj1 with hh | hh
        · subst hh
          exact Bool.eq_false_iff.mpr hpi
        · exact h j hh (by omega)
      · intro h j hj1 hj2
        exact h j (by omega) (by omega)

/-- C1: `find_memory_type` returns the lowest index `k` below
`memory_type_count` whose bit is set in the requirement mask and whose
type has all required property bits, and fails (panics, modelled as
`none`) exactly when no index below the count satisfies both
constraints. -/
theorem find_memory_type_correct (requirements : MemoryRequirements)
    (memProperties : PhysicalDeviceMemoryProperties) (requiredProperties : Nat) :
    (∀ k, find_memory_type requirements memProperties requiredProperties = some k ↔
      (k < memProperties.memoryTypeCount
        ∧ suitableMemoryType requirements memProperties requiredProperties k = true
        ∧ ∀ j < k,
            suitableMemoryType requirements memProperties requiredProperties j = false))
    ∧ (find_memory_type requirements memProperties requiredProperties = none ↔
      ∀ k < memProperties.memoryTypeCount,
        suitableMemoryType requirements memProperties requiredProperties k = false) := by
  constructor
  · intro k
    rw [find_memory_type, findFrom_eq_some]
    constructor
    · rintro ⟨_, h2, h3, h4⟩
      exact ⟨by omega, h3, fun j hj => h4 j (Nat.zero_le _) hj⟩
    · rintro ⟨h1, h2, h3⟩
      exact ⟨Nat.zero_le _, by omega, h2, fun j _ hj => h3 j hj⟩
  · rw [find_memory_type, findFrom_eq_none]
    constructor
    · intro h k hk
      exact h k (Nat.zero_le _) (by omega)
    · intro h j _ hj
      exact h j (by omega)

/-- Concrete instance of `find_memory_type_correct`: with two memory
types where only index 1 is allowed by the mask and has the required
flags, the search returns index 1. -/
theorem find_memory_type_correct_witness :
    find_memory_type ⟨16, 4, 2⟩ ⟨2, fun _ => 1⟩ 1 = some 1 ↔
      (1 < 2 ∧ suitableMemoryType ⟨16, 4, 2⟩ ⟨2, fun _ => 1⟩ 1 1 = true
        ∧ ∀ j < 1, suitableMemoryType ⟨16, 4, 2⟩ ⟨2, fun _ => 1⟩ 1 j = false) :=
  (find_memory_type_correct ⟨16, 4, 2⟩ ⟨2, fun _ => 1⟩ 1).1 1

/-- C2 counterexample: on a ring of N = 2 distinct slots starting at
`current_frame = 0`, the first `next()` call (i = 1) returns the slot at
index 0, not the slot at index `1 mod 2 = 1` as the claim states. -/
theorem in_flight_frames_claim_cex :
    InFlightFrames.callNext (InFlightFrames.new [⟨0, 0, 0⟩, ⟨1, 1, 1⟩]) 1
        = some ⟨0, 0, 0⟩
    ∧ [⟨0, 0, 0⟩, (⟨1, 1, 1⟩ : SyncObjects)].get? (1 % 2) = some ⟨1, 1, 1⟩
    ∧ InFlightFrames.callNext (InFlightFrames.new [⟨0, 0, 0⟩, ⟨1, 1, 1⟩]) 1
        ≠ some ⟨1, 1, 1⟩ := by
  decide

theorem InFlightFrames.stepN_eq (slots : List SyncObjects) (hs : slots ≠ []) :
    ∀ n c, c < slots.length →
      InFlightFrames.stepN ⟨slots, c⟩ n = some ⟨slots, (c + n) % slots.length⟩ := by
  intro n
  induction n with
  | zero =>
    intro c hc
    simp [InFlightFrames.stepN, Nat.mod_eq_of_lt hc]
  | succ n ih =>
    intro c hc
    have hget : slots.get? c = some (slots.get ⟨c, hc⟩) := List.get?_eq_get hc
    have hmod : (c + 1) % slots.length < slots.length :=
      Nat.mod_lt _ (List.length_pos.mpr hs)
    simp only [InFlightFrames.stepN, InFlightFrames.next, hget]
    rw [ih ((c + 1) % slots.length) hmod]
    have heq : ((c + 1) % slots.length + n) % slots.length
        = (c + (n + 1)) % slots.length := by
      rw [Nat.mod_add_mod]
      congr 1
      omega
    rw [heq]

/-- C2 amended: for every nonempty ring and every i ≥ 1, the i-th
`next()` call from `current_frame = 0` returns the slot at index
`(i - 1) mod N` (equivalently, the call made after i prior calls returns
slot `i mod N`); it never returns `none`, and the sequence is a pure
function of the ring, hence stable across runs. -/
theorem in_flight_frames_next_correct (slots : List SyncObjects) (i : Nat)
    (hs : slots ≠ []) (_hi : 1 ≤ i) :
    InFlightFrames.callNext (InFlightFrames.new slots) i
        = slots.get? ((i - 1) % slots.length)
    ∧ (InFlightFrames.callNext (InFlightFrames.new slots) i).isSome := by
  have hlen : 0 < slots.length := List.length_pos.mpr hs
  have hstep := InFlightFrames.stepN_eq slots hs (i - 1) 0 hlen
  rw [Nat.zero_add] at hstep
  have hmod : (i - 1) % slots.length < slots.length := Nat.mod_lt _ hlen
  have hget : slots.get? ((i - 1) % slots.length)
      = some (slots.get ⟨(i - 1) % slots.length, hmod⟩) := List.get?_eq_get hmod
  unfold InFlightFrames.callNext InFlightFrames.new
  rw [hstep]
  simp only [InFlightFrames.next]
  rw [hget]
  simp

/-- Concrete instance of `in_flight_frames_next_correct`: the third call
on a two-slot ring returns the slot at index `(3 - 1) mod 2 = 0`. -/
theorem in_flight_frames_next_correct_witness :
    InFlightFrames.callNext (InFlightFrames.new [⟨0, 0, 0⟩, ⟨1, 1, 1⟩]) 3
        = [⟨0, 0, 0⟩, (⟨1, 1, 1⟩ : SyncObjects)].get?
            ((3 - 1) % [⟨0, 0, 0⟩, (⟨1, 1, 1⟩ : SyncObjects)].length)
    ∧ (InFlightFrames.callNext (InFlightFrames.new [⟨0, 0, 0⟩, ⟨1, 1, 1⟩]) 3).isSome :=
  in_flight_frames_next_correct [⟨0, 0, 0⟩, ⟨1, 1, 1⟩] 3 (by decide) (by decide)

/-- C3: when acquire reports `ERROR_OUT_OF_DATE_KHR`, the iteration
recreates the swapchain and returns immediately — no fence reset, no
uniform update, no submit, no present; and the fence is reset only on
the successful-acquire path. -/
theorem draw_frame_acquire_out_of_date (pres : PresentResult) (resizePending : Bool) :
    drawFrame .outOfDate pres resizePending
        = [FrameAction.nextSyncObjects, FrameAction.waitFences, FrameAction.acquireImage,
            FrameAction.recreateSwapchain]
    ∧ (∀ (acq : AcquireResult) (pres' : PresentResult) (rp : Bool),
        FrameAction.resetFences ∈ drawFrame acq pres' rp → ∃ i, acq = AcquireResult.ok i) := by
  refine ⟨rfl, ?_⟩
  intro acq pres' rp hmem
  cases acq with
  | ok i => exact ⟨i, rfl⟩
  | outOfDate => simp [drawFrame] at hmem
  | otherError => simp [drawFrame] at hmem

/-- Concrete instance of `draw_frame_acquire_out_of_date`: the fence
reset observed in a successful iteration implies the acquire succeeded. -/
theorem draw_frame_acquire_out_of_date_witness :
    ∃ i, AcquireResult.ok 5 = AcquireResult.ok i :=
  (draw_frame_acquire_out_of_date (.ok false) false).2 (.ok 5) (.ok false) false
    (by decide)

/-- C4: at the present step, a suboptimal result triggers the rebuild
path, `ERROR_OUT_OF_DATE_KHR` triggers the rebuild path without
aborting, any other present error aborts, and a pending resize triggers
the rebuild path even when present succeeded cleanly. -/
theorem draw_frame_present_handling (i : Nat) (resizePending : Bool) :
    FrameAction.recreateSwapchain ∈ drawFrame (.ok i) (.ok true) resizePending
    ∧ FrameAction.recreateSwapchain ∈ drawFrame (.ok i) .outOfDate resizePending
    ∧ FrameAction.fatal ∉ drawFrame (.ok i) .outOfDate resizePending
    ∧ FrameAction.fatal ∈ drawFrame (.ok i) .otherError resizePending
    ∧ FrameAction.recreateSwapchain ∈ drawFrame (.ok i) (.ok false) true := by
  cases resizePending <;> simp [drawFrame]

/-- Concrete instance of `draw_frame_present_handling`: a suboptimal
present on an un-resized window triggers the rebuild path. -/
theorem draw_frame_present_handling_witness :
    FrameAction.recreateSwapchain ∈ drawFrame (.ok 0) (.ok true) false :=
  (draw_frame_present_handling 0 false).1

/-- C5 counterexample: for `self` with buffer handle 1 and an argument
buffer with handle 2, `self.copy(arg, 4)` records a GPU copy whose
source is the argument (handle 2) and whose destination is `self`
(handle 1) — not a copy from `self` into the argument as claimed. -/
theorem buffer_copy_claim_cex :
    DeviceOp.recorded (RecordedCmd.cmdCopyBuffer 2 1 0 0 4)
        ∈ Buffer.copy ⟨1, 10, 64⟩ ⟨2, 20, 64⟩ 4
    ∧ DeviceOp.recorded (RecordedCmd.cmdCopyBuffer 1 2 0 0 4)
        ∉ Buffer.copy ⟨1, 10, 64⟩ ⟨2, 20, 64⟩ 4 := by
  decide

/-- C5 amended: `Buffer::copy` performs a one-shot GPU copy from the
buffer passed as argument into `self`, copying exactly the first `size`
bytes at offset 0 of source and destination, as the single command
recorded through `execute_one_time_commands`. -/
theorem buffer_copy_one_shot (self src : Buffer) (size : Nat) :
    Buffer.copy self src size
        = [DeviceOp.allocateCommandBuffer, DeviceOp.beginCommandBuffer,
            DeviceOp.recorded
              (RecordedCmd.cmdCopyBuffer src.buffer self.buffer 0 0 size),
            DeviceOp.endCommandBuffer, DeviceOp.queueSubmit,
            DeviceOp.queueWaitIdle, DeviceOp.freeCommandBuffer]
    ∧ ∀ c, DeviceOp.recorded c ∈ Buffer.copy self src size →
        c = RecordedCmd.cmdCopyBuffer src.buffer self.buffer 0 0 size := by
  refine ⟨rfl, ?_⟩
  intro c hc
  simpa [Buffer.copy, execute_one_time_commands] using hc

/-- Concrete instance of `buffer_copy_one_shot`: the only recorded
command of a concrete copy is the src-to-self copy. -/
theorem buffer_copy_one_shot_witness :
    RecordedCmd.cmdCopyBuffer 2 1 0 0 4
      = RecordedCmd.cmdCopyBuffer 2 1 0 0 4 :=
  (buffer_copy_one_shot ⟨1, 10, 64⟩ ⟨2, 20, 64⟩ 4).2
    (RecordedCmd.cmdCopyBuffer 2 1 0 0 4) (by decide)

/-- C6: `Buffer::create` allocates the backing memory with the
driver-reported requirement size, binds at offset 0, and stores the
reported size (not the requested one) in the returned `Buffer`, for
every requested size, usage and property set for which a memory type
exists. -/
theorem buffer_create_reported_size (bufferHandle memoryHandle : Nat)
    (reported : MemoryRequirements)
    (memProperties : PhysicalDeviceMemoryProperties)
    (size usage flags memType : Nat)
    (h : find_memory_type reported memProperties flags = some memType) :
    ∃ b events,
      Buffer.create bufferHandle memoryHandle reported memProperties size usage flags
          = some (b, events)
        ∧ b.size = reported.size
        ∧ CreateEvent.allocateMemory reported.size memType ∈ events
        ∧ CreateEvent.bindBufferMemory 0 ∈ events
        ∧ (size ≠ reported.size → b.size ≠ size) := by
  refine ⟨⟨bufferHandle, memoryHandle, reported.size⟩,
    [CreateEvent.createBuffer size usage,
      CreateEvent.allocateMemory reported.size memType,
      CreateEvent.bindBufferMemory 0], ?_, rfl, ?_, ?_, ?_⟩
  · simp [Buffer.create, h]
  · simp
  · simp
  · exact fun hne hh => hne hh.symm

/-- Concrete instance of `buffer_create_reported_size`: requesting 24
bytes while the driver reports a 32-byte requirement yields a buffer
whose stored size is 32. -/
theorem buffer_create_reported_size_witness :
    ∃ b events,
      Buffer.create 1 2 ⟨32, 4, 1⟩ ⟨1, fun _ => 7⟩ 24 8 7 = some (b, events)
        ∧ b.size = (⟨32, 4, 1⟩ : MemoryRequirements).size
        ∧ CreateEvent.allocateMemory (⟨32, 4, 1⟩ : MemoryRequirements).size 0 ∈ events
        ∧ CreateEvent.bindBufferMemory 0 ∈ events
        ∧ (24 ≠ (⟨32, 4, 1⟩ : MemoryRequirements).size →
            b.size ≠ 24) :=
  buffer_create_reported_size 1 2 ⟨32, 4, 1⟩ ⟨1, fun _ => 7⟩ 24 8 7 0 (by decide)

/-- C7: `create_sync_objects` builds exactly `MAX_FRAMES_IN_FLIGHT = 2`
synchronization slots, and every slot's fence is created in the signaled
state. -/
theorem create_sync_objects_signaled :
    create_sync_objects.length = MAX_FRAMES_IN_FLIGHT
    ∧ MAX_FRAMES_IN_FLIGHT = 2
    ∧ create_sync_objects.all
        (fun s => s.fenceFlags == FenceCreateFlags.signaled) = true := by
  decide

/-- C8: the `VkContext` destruction sequence destroys both command pools
before the device, the device before the surface, and the surface before
the instance, whether or not a debug callback is present. -/
theorem vk_context_drop_order (hasDebugCallback : Bool) :
    ((vkContextDrop hasDebugCallback).indexOf
        (DestroyEvent.destroyCommandPool PoolKind.transient)
      < (vkContextDrop hasDebugCallback).indexOf DestroyEvent.destroyDevice)
    ∧ ((vkContextDrop hasDebugCallback).indexOf
        (DestroyEvent.destroyCommandPool PoolKind.general)
      < (vkContextDrop hasDebugCallback).indexOf DestroyEvent.destroyDevice)
    ∧ ((vkContextDrop hasDebugCallback).indexOf DestroyEvent.destroyDevice
      < (vkContextDrop hasDebugCallback).indexOf DestroyEvent.destroySurface)
    ∧ ((vkContextDrop hasDebugCallback).indexOf DestroyEvent.destroySurface
      < (vkContextDrop hasDebugCallback).indexOf DestroyEvent.destroyInstance)
    ∧ DestroyEvent.destroyCommandPool PoolKind.transient
        ∈ vkContextDrop hasDebugCallback
    ∧ DestroyEvent.destroyCommandPool PoolKind.general
        ∈ vkContextDrop hasDebugCallback
    ∧ DestroyEvent.destroyDevice ∈ vkContextDrop hasDebugCallback
    ∧ DestroyEvent.destroySurface ∈ vkContextDrop hasDebugCallback
    ∧ DestroyEvent.destroyInstance ∈ vkContextDrop hasDebugCallback := by
  cases hasDebugCallback <;> decide

/-- C9: `Object::uniforms(index)` and `Object::descriptor_sets(index)`
are defined (return a value rather than panic) exactly when `index` is
strictly below the length of the vector the `Object` was constructed
with. -/
theorem object_indexing_defined (mesh : Nat) (uniforms : List Buffer)
    (descriptorSets : List Nat) (transform : Mat4) (index : Nat) :
    (((Object.new mesh uniforms descriptorSets transform).uniformsAt index).isSome
        ↔ index < uniforms.length)
    ∧ (((Object.new mesh uniforms descriptorSets transform).descriptorSetsAt
          index).isSome
        ↔ index < descriptorSets.length) := by
  refine ⟨?_, ?_⟩ <;>
  · simp only [Object.new, Object.uniformsAt, Object.descriptorSetsAt,
      List.get?_eq_getElem?, Option.isSome_iff_exists]
    constructor
    · rintro ⟨a, ha⟩
      obtain ⟨h, -⟩ := List.getElem?_eq_some_iff.mp ha
      exact h
    · intro h
      exact ⟨_, List.getElem?_eq_getElem h⟩

/-- Concrete instance of `object_indexing_defined`: index 0 is in bounds
for singleton vectors. -/
theorem object_indexing_defined_witness :
    (((Object.new 0 [⟨1, 2, 3⟩] [4] (fun _ _ => 0)).uniformsAt 0).isSome
        ↔ 0 < [(⟨1, 2, 3⟩ : Buffer)].length)
    ∧ (((Object.new 0 [⟨1, 2, 3⟩] [4] (fun _ _ => 0)).descriptorSetsAt 0).isSome
        ↔ 0 < [4].length) :=
  object_indexing_defined 0 [⟨1, 2, 3⟩] [4] (fun _ _ => 0) 0

/-- C10: the camera radius starts at 3.0, `rotate` never changes it,
`forward d` sets it to `r - d` exactly when `|r - d| > 1` and leaves it
unchanged otherwise, and therefore every sequence of rotate/forward
calls from the default state keeps `|r| > 1` (the radius never enters
`[-1, 1]`). -/
theorem camera_radius_invariant :
    cameraDefault.r = 3
    ∧ (∀ (c : Camera) (theta phi : ℚ), (c.rotate theta phi).r = c.r)
    ∧ (∀ (c : Camera) (d : ℚ), 1 < |c.r - d| → (c.forward d).r = c.r - d)
    ∧ (∀ (c : Camera) (d : ℚ), ¬ 1 < |c.r - d| → (c.forward d).r = c.r)
    ∧ (∀ ops : List CameraOp, 1 < |(cameraDefault.applyOps ops).r| ) := by
  have hfwd : ∀ (c : Camera) (d : ℚ), 1 < |c.r - d| → (c.forward d).r = c.r - d := by
    intro c d h
    simp only [Camera.forward]
    rw [if_pos h]
  have hfwd' : ∀ (c : Camera) (d : ℚ), ¬ 1 < |c.r - d| → (c.forward d).r = c.r := by
    intro c d h
    simp only [Camera.forward]
    rw [if_neg h]
  have step : ∀ (c : Camera) (op : CameraOp), 1 < |c.r| → 1 < |(c.applyOp op).r| := by
    intro c op hc
    cases op with
    | rotate theta phi => simpa [Camera.applyOp, Camera.rotate] using hc
    | forward d =>
      by_cases h : (1 : ℚ) < |c.r - d|
      · have := hfwd c d h
        simpa [Camera.applyOp, this] using h
      · have := hfwd' c d h
        simpa [Camera.applyOp, this] using hc
  have run : ∀ (ops : List CameraOp) (c : Camera),
      1 < |c.r| → 1 < |(c.applyOps ops).r| := by
    intro ops
    induction ops with
    | nil =>
      intro c hc
      simpa [Camera.applyOps] using hc
    | cons op rest ih =>
      intro c hc
      have h1 : 1 < |(c.applyOp op).r| := step c op hc
      simpa [Camera.applyOps, List.foldl_cons] using
        ih (c.applyOp op) h1
  refine ⟨rfl, fun c theta phi => rfl, hfwd, hfwd', ?_⟩
  intro ops
  exact run ops cameraDefault (by norm_num [cameraDefault])

/-- Concrete instance of `camera_radius_invariant`: from radius 3, a
forward step of 1 passes the guard and sets the radius to 2. -/
theorem camera_radius_invariant_witness :
    ((⟨0, 0, 3⟩ : Camera).forward 1).r = (⟨0, 0, 3⟩ : Camera).r - 1 :=
  camera_radius_invariant.2.2.1 ⟨0, 0, 3⟩ 1 (by norm_num)
